import Mathlib

/-!
Verification of the DevScout streaming subsystem: a shallow embedding of
`src/scripts/streaming/kafka_producer.py` (event producer) and
`src/spark_jobs/streaming/coding_events_consumer.py` (Spark structured-streaming
consumer), with proofs and refutations of the specified stream-processing
properties.

Modelling conventions:
- Python / Spark floats and timestamps are modelled as rationals (`ℚ`); event
  times are in seconds, so the 10-minute and 5-minute windows have sizes `600`
  and `300`.
- Nullable columns of the consumer's event schema (`get_event_schema`) are
  `Option`-valued fields.
- The producer's wall clock (`datetime.utcnow()`) is an explicit input
  `now : ℚ` (seconds); `int(now.timestamp() * 1000)` becomes `⌊now * 1000⌋`.
- Spark's micro-batch execution is modelled as a list of batches of raw
  events processed sequentially with explicit aggregation state.
-/

/-- String constants for the event types handled by the consumer's filters
and produced by `CodingEventProducer`. -/
def etTestResult : String := "test_result"

/-- Event type produced by `send_challenge_completion_event`. -/
def etChallengeCompletion : String := "challenge_completion"

/-- Event type produced by `send_live_coding_metric`. -/
def etLiveCodingMetric : String := "live_coding_metric"

/-- Event type produced by `send_code_submission_event`; the consumer has no
filter for it. -/
def etCodeSubmission : String := "code_submission"

/-- A raw event as seen by the consumer after `from_json` with
`get_event_schema()`: one field per schema column (nullable columns are
`Option`), with the `timestamp` string already parsed to an event time in
seconds (`to_timestamp(col("timestamp"))`). -/
structure RawEvent where
  event_id : String
  event_type : String
  candidate_id : ℤ
  challenge_id : Option String
  session_id : Option String
  event_time : ℚ
  tests_passed : Option ℤ
  tests_total : Option ℤ
  success_rate : Option ℚ
  execution_time_ms : Option ℚ
  final_score : Option ℚ
  time_taken_seconds : Option ℤ
  attempts : Option ℤ
  metric_type : Option String
  metric_value : Option ℚ
  errors : Option (List String)
  has_errors : Option Bool
  deriving DecidableEq

/-- A payload with every optional column absent, used as the base record that
each producer helper fills in (a Python dict starts empty). -/
def emptyPayload : RawEvent where
  event_id := ""
  event_type := ""
  candidate_id := 0
  challenge_id := none
  session_id := none
  event_time := 0
  tests_passed := none
  tests_total := none
  success_rate := none
  execution_time_ms := none
  final_score := none
  time_taken_seconds := none
  attempts := none
  metric_type := none
  metric_value := none
  errors := none
  has_errors := none

/-- Python's `round(q, 2)` on exact rationals: scale by 100, round half to
even, scale back. -/
def round_half_even (q : ℚ) : ℤ :=
  let fl : ℤ := ⌊q⌋
  let fr : ℚ := q - fl
  if fr < 1/2 then fl
  else if 1/2 < fr then fl + 1
  else if fl % 2 = 0 then fl else fl + 1

/-- Two-decimal rounding used at `kafka_producer.py:152`:
`round(tests_passed / tests_total * 100, 2)`. -/
def py_round2 (q : ℚ) : ℚ := (round_half_even (q * 100) : ℚ) / 100

/-- The event id minted by `send_event`
(`kafka_producer.py:72`): the string `event_` followed by
`int(datetime.utcnow().timestamp() * 1000)`, i.e. the wall-clock
millisecond at the moment of the call. -/
def send_event_id (now : ℚ) : String := "event_" ++ toString (⌊now * 1000⌋ : ℤ)

/-- Metadata enrichment performed by `send_event`
(`kafka_producer.py:70-75`): overwrite `event_id` with the
millisecond-derived id and stamp `timestamp` (our `event_time`) from the
same clock reading. The extra `producer` field is not in the consumer's
schema and is dropped by `from_json`, so it is not modelled. -/
def enrich_event (payload : RawEvent) (now : ℚ) : RawEvent :=
  { payload with event_id := send_event_id now, event_time := now }

/-- Control flow of `send_event` (`kafka_producer.py:59-97`).
Inputs: the payload, the clock reading, whether `self.producer` is non-`None`
(`producer_connected`), and whether the Kafka round trip would succeed
(`kafka_send_ok`).  Output: the enriched event, the boolean returned to the
caller, and whether the event was actually delivered to the message bus.
With a producer, success returns `True` and failure `False`; with no
producer the event is only logged and the function returns `True`. -/
def send_event (payload : RawEvent) (now : ℚ)
    (producer_connected kafka_send_ok : Bool) : RawEvent × Bool × Bool :=
  let e := enrich_event payload now
  if producer_connected then (e, kafka_send_ok, kafka_send_ok)
  else (e, true, false)

/-- `send_code_submission_event` (`kafka_producer.py:99-124`): the dict's
`language`, `code_length` and `code_hash` keys are outside the consumer's
schema, so only the schema columns survive decoding. -/
def send_code_submission_event (candidate_id : ℤ) (challenge_id : String)
    (now : ℚ) : RawEvent :=
  (send_event
    { emptyPayload with
        event_type := etCodeSubmission
        candidate_id := candidate_id
        challenge_id := some challenge_id } now true true).1

/-- `send_test_result_event` (`kafka_producer.py:126-158`): builds the
test-result payload; `success_rate` is
`round(tests_passed / tests_total * 100, 2)` when `tests_total > 0` and `0`
otherwise, and `has_errors` is `bool(errors)`. -/
def send_test_result_event (candidate_id : ℤ) (challenge_id : String)
    (tests_passed tests_total : ℤ) (execution_time_ms : ℚ)
    (errors : List String) (now : ℚ) : RawEvent :=
  (send_event
    { emptyPayload with
        event_type := etTestResult
        candidate_id := candidate_id
        challenge_id := some challenge_id
        tests_passed := some tests_passed
        tests_total := some tests_total
        success_rate :=
          some (if 0 < tests_total
                then py_round2 ((tests_passed : ℚ) / (tests_total : ℚ) * 100)
                else 0)
        execution_time_ms := some execution_time_ms
        errors := some errors
        has_errors := some (!errors.isEmpty) } now true true).1

/-- `send_challenge_completion_event` (`kafka_producer.py:160-188`). The
dict's `completed_at` key is outside the consumer's schema. -/
def send_challenge_completion_event (candidate_id : ℤ) (challenge_id : String)
    (final_score : ℚ) (time_taken_seconds : ℤ) (attempts : ℤ)
    (now : ℚ) : RawEvent :=
  (send_event
    { emptyPayload with
        event_type := etChallengeCompletion
        candidate_id := candidate_id
        challenge_id := some challenge_id
        final_score := some final_score
        time_taken_seconds := some time_taken_seconds
        attempts := some attempts } now true true).1

/-- `send_live_coding_metric` (`kafka_producer.py:190-217`). The `metadata`
dict is outside the consumer's schema. -/
def send_live_coding_metric (candidate_id : ℤ) (session_id : String)
    (metric_type : String) (metric_value : ℚ) (now : ℚ) : RawEvent :=
  (send_event
    { emptyPayload with
        event_type := etLiveCodingMetric
        candidate_id := candidate_id
        session_id := some session_id
        metric_type := some metric_type
        metric_value := some metric_value } now true true).1

/-!
Consumer model (`coding_events_consumer.py`). The three per-type streams are
built by `filter` on `event_type` followed by a column `select`
(lines 121-132, 150-159, 161-170).
-/

/-- Columns selected for the test-result stream
(`coding_events_consumer.py:123-132`). -/
structure TestEvent where
  candidate_id : ℤ
  challenge_id : Option String
  tests_passed : Option ℤ
  tests_total : Option ℤ
  success_rate : Option ℚ
  execution_time_ms : Option ℚ
  has_errors : Option Bool
  event_time : ℚ
  deriving DecidableEq

/-- Columns selected for the completion stream
(`coding_events_consumer.py:152-159`); these rows are also what query4
hands to `write_to_postgres`. -/
structure CompletionRow where
  candidate_id : ℤ
  challenge_id : Option String
  final_score : Option ℚ
  time_taken_seconds : Option ℤ
  attempts : Option ℤ
  event_time : ℚ
  deriving DecidableEq

/-- Columns selected for the live-metric stream
(`coding_events_consumer.py:164-170`). -/
structure LiveEvent where
  candidate_id : ℤ
  session_id : Option String
  metric_type : Option String
  metric_value : Option ℚ
  event_time : ℚ
  deriving DecidableEq

/-- The `select` on the filtered test-result rows. -/
def selectTestColumns (e : RawEvent) : TestEvent where
  candidate_id := e.candidate_id
  challenge_id := e.challenge_id
  tests_passed := e.tests_passed
  tests_total := e.tests_total
  success_rate := e.success_rate
  execution_time_ms := e.execution_time_ms
  has_errors := e.has_errors
  event_time := e.event_time

/-- The `select` on the filtered completion rows. -/
def selectCompletionColumns (e : RawEvent) : CompletionRow where
  candidate_id := e.candidate_id
  challenge_id := e.challenge_id
  final_score := e.final_score
  time_taken_seconds := e.time_taken_seconds
  attempts := e.attempts
  event_time := e.event_time

/-- The `select` on the filtered live-metric rows. -/
def selectLiveColumns (e : RawEvent) : LiveEvent where
  candidate_id := e.candidate_id
  session_id := e.session_id
  metric_type := e.metric_type
  metric_value := e.metric_value
  event_time := e.event_time

/-- `test_results_df` (`coding_events_consumer.py:121-132`). -/
def test_results_stream (es : List RawEvent) : List TestEvent :=
  (es.filter fun e => e.event_type == etTestResult).map selectTestColumns

/-- `completions_df` (`coding_events_consumer.py:150-159`). -/
def completions_stream (es : List RawEvent) : List CompletionRow :=
  (es.filter fun e => e.event_type == etChallengeCompletion).map selectCompletionColumns

/-- `live_metrics_df` (`coding_events_consumer.py:161-170`). -/
def live_metrics_stream (es : List RawEvent) : List LiveEvent :=
  (es.filter fun e => e.event_type == etLiveCodingMetric).map selectLiveColumns

/-- Start of the tumbling window of a given size containing time `t`
(Spark's `window(col, size)` with default zero offset aligns windows to
integer multiples of the size). -/
def windowStart (size t : ℚ) : ℚ := size * (⌊t / size⌋ : ℤ)

/-- Grouping key of the 10-minute test-result aggregation
(`coding_events_consumer.py:135-141`): the window struct (start and end)
plus `candidate_id` and `challenge_id`. -/
structure TestKey where
  window_start : ℚ
  window_end : ℚ
  candidate_id : ℤ
  challenge_id : Option String
  deriving DecidableEq

/-- Key of the window containing a test-result event. -/
def testKeyOf (e : TestEvent) : TestKey where
  window_start := windowStart 600 e.event_time
  window_end := windowStart 600 e.event_time + 600
  candidate_id := e.candidate_id
  challenge_id := e.challenge_id

/-- Grouping key of the 5-minute live-metric aggregation
(`coding_events_consumer.py:173-180`): the window struct plus
`candidate_id`, `session_id` and `metric_type`. -/
structure LiveKey where
  window_start : ℚ
  window_end : ℚ
  candidate_id : ℤ
  session_id : Option String
  metric_type : Option String
  deriving DecidableEq

/-- Key of the window containing a live-metric event. -/
def liveKeyOf (m : LiveEvent) : LiveKey where
  window_start := windowStart 300 m.event_time
  window_end := windowStart 300 m.event_time + 300
  candidate_id := m.candidate_id
  session_id := m.session_id
  metric_type := m.metric_type

/-- Running state of one test-result window: `count(*)` plus, for each
aggregated column, the sum and non-null count that SQL `avg`/`sum`
maintain (`avg` and `sum` skip NULL inputs). -/
structure TestAcc where
  cnt_rows : ℕ
  sr_sum : ℚ
  sr_cnt : ℕ
  ex_sum : ℚ
  ex_cnt : ℕ
  err_sum : ℕ
  err_cnt : ℕ
  deriving DecidableEq

/-- Accumulator with no events folded in. -/
def emptyTestAcc : TestAcc := ⟨0, 0, 0, 0, 0, 0, 0⟩

/-- Fold one test-result event into its window's accumulator, per the
aggregate list at `coding_events_consumer.py:142-147`: `avg(success_rate)`,
`avg(execution_time_ms)`, `count(*)`, `sum(has_errors)` (booleans counted
as 1/0). NULL inputs contribute nothing to a column's sum or count. -/
def accAddTest (a : TestAcc) (e : TestEvent) : TestAcc :=
  ⟨a.cnt_rows + 1,
   a.sr_sum + e.success_rate.getD 0,
   a.sr_cnt + (if e.success_rate.isSome then 1 else 0),
   a.ex_sum + e.execution_time_ms.getD 0,
   a.ex_cnt + (if e.execution_time_ms.isSome then 1 else 0),
   a.err_sum + (match e.has_errors with | some true => 1 | _ => 0),
   a.err_cnt + (if e.has_errors.isSome then 1 else 0)⟩

/-- Finalized test-result window row with the output columns of
`test_aggregates`: `avg_success_rate`, `avg_execution_time`,
`attempt_count`, `error_count` (an all-NULL aggregated column yields a
NULL aggregate). -/
structure TestRow where
  key : TestKey
  avg_success_rate : Option ℚ
  avg_execution_time : Option ℚ
  attempt_count : ℕ
  error_count : Option ℕ
  deriving DecidableEq

/-- Derive the output row of one test-result window from its accumulator. -/
def finalizeTestRow (k : TestKey) (a : TestAcc) : TestRow where
  key := k
  avg_success_rate := if a.sr_cnt = 0 then none else some (a.sr_sum / a.sr_cnt)
  avg_execution_time := if a.ex_cnt = 0 then none else some (a.ex_sum / a.ex_cnt)
  attempt_count := a.cnt_rows
  error_count := if a.err_cnt = 0 then none else some a.err_sum

/-- Running state of one live-metric window: `count(*)` plus the sum and
non-null count behind `avg(metric_value)`. -/
structure LiveAcc where
  cnt_rows : ℕ
  mv_sum : ℚ
  mv_cnt : ℕ
  deriving DecidableEq

/-- Live accumulator with no events folded in. -/
def emptyLiveAcc : LiveAcc := ⟨0, 0, 0⟩

/-- Fold one live-metric event into its window's accumulator, per
`coding_events_consumer.py:181-184`: `avg(metric_value)`, `count(*)`. -/
def accAddLive (a : LiveAcc) (m : LiveEvent) : LiveAcc :=
  ⟨a.cnt_rows + 1,
   a.mv_sum + m.metric_value.getD 0,
   a.mv_cnt + (if m.metric_value.isSome then 1 else 0)⟩

/-- Finalized live-metric window row: `avg_metric_value`, `metric_count`. -/
structure LiveRow where
  key : LiveKey
  avg_metric_value : Option ℚ
  metric_count : ℕ
  deriving DecidableEq

/-- Derive the output row of one live-metric window from its accumulator. -/
def finalizeLiveRow (k : LiveKey) (a : LiveAcc) : LiveRow where
  key := k
  avg_metric_value := if a.mv_cnt = 0 then none else some (a.mv_sum / a.mv_cnt)
  metric_count := a.cnt_rows

/-!
Micro-batch execution of the `test_aggregates` query (query1,
`coding_events_consumer.py:191-196`). The query runs with
`outputMode("update")`: at every trigger, the sink receives one row for
each grouping key whose aggregate changed in that trigger. The
`withWatermark("event_timestamp", "10 minutes")` clause makes the engine
track `max(event_timestamp)` over completed batches and drop input rows
older than that maximum minus the delay before they reach the aggregation.
-/

/-- Association-list lookup in the keyed window state. -/
def lookupAcc (k : TestKey) : List (TestKey × TestAcc) → Option TestAcc
  | [] => none
  | (k1, a) :: rest => if k1 = k then some a else lookupAcc k rest

/-- Insert or replace a key's accumulator in the window state. -/
def insertAcc (k : TestKey) (a : TestAcc) :
    List (TestKey × TestAcc) → List (TestKey × TestAcc)
  | [] => [(k, a)]
  | (k1, a1) :: rest =>
      if k1 = k then (k, a) :: rest else (k1, a1) :: insertAcc k a rest

/-- Fold one test-result event into the keyed window state, creating the
accumulator on first touch. -/
def stepTestState (s : List (TestKey × TestAcc)) (e : TestEvent) :
    List (TestKey × TestAcc) :=
  let k := testKeyOf e
  insertAcc k (accAddTest ((lookupAcc k s).getD emptyTestAcc) e) s

/-- One trigger of the `test_aggregates` query in update output mode:
drop rows older than the current watermark, fold the kept rows into the
keyed state, and emit one updated row per grouping key touched in this
batch. Returns the new state and the rows emitted at this trigger. -/
def processTestBatch (wm : Option ℚ) (s : List (TestKey × TestAcc))
    (batch : List TestEvent) : List (TestKey × TestAcc) × List TestRow :=
  let kept := batch.filter fun e =>
    match wm with
    | none => true
    | some w => decide (w ≤ e.event_time)
  let s2 := kept.foldl stepTestState s
  let keys := (kept.map testKeyOf).dedup
  (s2, keys.filterMap fun k => (lookupAcc k s2).map (finalizeTestRow k))

/-- Raise the tracked maximum event time with the rows of one batch. -/
def advanceMaxSeen (m : Option ℚ) (batch : List TestEvent) : Option ℚ :=
  batch.foldl (fun acc e => some (max (acc.getD e.event_time) e.event_time)) m

/-- Engine state of the test-aggregates query between triggers: the maximum
event time over completed batches (the watermark is this minus the
10-minute delay) and the open window accumulators. -/
structure TestEngineState where
  max_seen : Option ℚ
  store : List (TestKey × TestAcc)

/-- Run the `test_aggregates` streaming query over a list of micro-batches
of raw events, concatenating the rows emitted at each trigger. Each batch
is filtered to `event_type == "test_result"` and column-selected
(`test_results_stream`) before aggregation. -/
def runTestAggregates : TestEngineState → List (List RawEvent) → List TestRow
  | _, [] => []
  | st, b :: bs =>
      let evs := test_results_stream b
      let wm := st.max_seen.map (fun m => m - 600)
      let out := processTestBatch wm st.store evs
      out.2 ++ runTestAggregates ⟨advanceMaxSeen st.max_seen evs, out.1⟩ bs

/-- Initial engine state: no event time seen, no open windows. -/
def initTestEngine : TestEngineState := ⟨none, []⟩

/-!
Micro-batch execution of the `live_aggregates` query (query3,
`coding_events_consumer.py:207-212`), the exact mirror of the
test-aggregates engine with the 5-minute window key, the live accumulator
and the 5-minute watermark delay of
`withWatermark("event_timestamp", "5 minutes")`.
-/

/-- Association-list lookup in the live-metric window state. -/
def lookupLiveAcc (k : LiveKey) : List (LiveKey × LiveAcc) → Option LiveAcc
  | [] => none
  | (k1, a) :: rest => if k1 = k then some a else lookupLiveAcc k rest

/-- Insert or replace a key's accumulator in the live-metric window state. -/
def insertLiveAcc (k : LiveKey) (a : LiveAcc) :
    List (LiveKey × LiveAcc) → List (LiveKey × LiveAcc)
  | [] => [(k, a)]
  | (k1, a1) :: rest =>
      if k1 = k then (k, a) :: rest else (k1, a1) :: insertLiveAcc k a rest

/-- Fold one live-metric event into the keyed window state, creating the
accumulator on first touch. -/
def stepLiveState (s : List (LiveKey × LiveAcc)) (m : LiveEvent) :
    List (LiveKey × LiveAcc) :=
  let k := liveKeyOf m
  insertLiveAcc k (accAddLive ((lookupLiveAcc k s).getD emptyLiveAcc) m) s

/-- One trigger of the `live_aggregates` query in update output mode:
drop rows older than the current watermark, fold the kept rows into the
keyed state, and emit one updated row per grouping key touched in this
batch. Returns the new state and the rows emitted at this trigger. -/
def processLiveBatch (wm : Option ℚ) (s : List (LiveKey × LiveAcc))
    (batch : List LiveEvent) : List (LiveKey × LiveAcc) × List LiveRow :=
  let kept := batch.filter fun m =>
    match wm with
    | none => true
    | some w => decide (w ≤ m.event_time)
  let s2 := kept.foldl stepLiveState s
  let keys := (kept.map liveKeyOf).dedup
  (s2, keys.filterMap fun k => (lookupLiveAcc k s2).map (finalizeLiveRow k))

/-- Raise the tracked maximum event time with the rows of one live batch. -/
def advanceMaxSeenLive (m : Option ℚ) (batch : List LiveEvent) : Option ℚ :=
  batch.foldl (fun acc e => some (max (acc.getD e.event_time) e.event_time)) m

/-- Engine state of the live-aggregates query between triggers. -/
structure LiveEngineState where
  max_seen : Option ℚ
  store : List (LiveKey × LiveAcc)

/-- Run the `live_aggregates` streaming query over a list of micro-batches
of raw events, concatenating the rows emitted at each trigger. Each batch
is filtered to `event_type == "live_coding_metric"` and column-selected
(`live_metrics_stream`) before aggregation; the watermark delay is 300
seconds (5 minutes). -/
def runLiveAggregates : LiveEngineState → List (List RawEvent) → List LiveRow
  | _, [] => []
  | st, b :: bs =>
      let evs := live_metrics_stream b
      let wm := st.max_seen.map (fun m => m - 300)
      let out := processLiveBatch wm st.store evs
      out.2 ++ runLiveAggregates ⟨advanceMaxSeenLive st.max_seen evs, out.1⟩ bs

/-- Initial live-engine state: no event time seen, no open windows. -/
def initLiveEngine : LiveEngineState := ⟨none, []⟩

/-- Micro-batch execution of the completions query (query2/query4,
`coding_events_consumer.py:199-204` and `219-225`): append output mode on a
stream without aggregation emits, at each trigger, exactly the selected
rows of that batch. -/
def runCompletions : List (List RawEvent) → List CompletionRow
  | [] => []
  | b :: bs => completions_stream b ++ runCompletions bs

/-- `write_to_postgres` (`coding_events_consumer.py:239-262`): the batch is
written with JDBC `mode("append")`, i.e. every delivered row is appended to
the table; there is no key, upsert, or deduplication. The table is a list
of rows, the write appends the batch. -/
def write_to_postgres (table : List CompletionRow) (batch : List CompletionRow) :
    List CompletionRow :=
  table ++ batch

/-!
Watermark Tracker. The repository's consumer delegates watermarking to
Spark's `withWatermark`; the explicit `observe`/`current` tracker of
spec section 4.2 has no implementation under `src/`, so it is modelled
from the spec here.
-/

/-- Modelled from the spec: the Watermark Tracker of section 4.2, missing
from `src/` (the consumer uses Spark's built-in `withWatermark`). It keeps
`max_seen` per partition and a configured `allowed_lateness`. -/
structure WatermarkTracker where
  allowed_lateness : ℚ
  max_seen : ℕ → Option ℚ

/-- Modelled from the spec: `observe(partition, event_time)` updates
`max_seen[partition] = max(max_seen[partition], event_time)`. -/
def observe (w : WatermarkTracker) (p : ℕ) (t : ℚ) : WatermarkTracker :=
  { w with
      max_seen := fun q =>
        if q = p then some (max ((w.max_seen p).getD t) t) else w.max_seen q }

/-- Modelled from the spec: `current(partition)` returns
`max_seen[partition] - allowed_lateness` (no value before the first
observation on that partition). -/
def current (w : WatermarkTracker) (p : ℕ) : Option ℚ :=
  (w.max_seen p).map (fun m => m - w.allowed_lateness)

/-- A fresh tracker with the given allowed lateness and nothing observed. -/
def initTracker (lat : ℚ) : WatermarkTracker := ⟨lat, fun _ => none⟩

/-- Feed a sequence of `(partition, event_time)` observations to a tracker. -/
def runObserve (w : WatermarkTracker) : List (ℕ × ℚ) → WatermarkTracker
  | [] => w
  | (p, t) :: rest => runObserve (observe w p t) rest

/-- Running maximum of a list of times (`none` on the empty list). -/
def listMaxQ (ts : List ℚ) : Option ℚ :=
  ts.foldl (fun acc t => some (max (acc.getD t) t)) none

/-- Aggregate state obtained by folding a list of in-window test-result
events into a fresh accumulator (the arrival order is the list order). -/
def foldTestWindow (es : List TestEvent) : TestAcc := es.foldl accAddTest emptyTestAcc

/-- Aggregate state obtained by folding a list of in-window live-metric
events into a fresh accumulator. -/
def foldLiveWindow (ms : List LiveEvent) : LiveAcc := ms.foldl accAddLive emptyLiveAcc

/-- Challenge id used by the concrete scenarios below. -/
def chalC1 : String := "c1"

/-- Session id used by the concrete scenarios below. -/
def sessS1 : String := "session_1"

/-- Metric type used by the concrete scenarios below. -/
def metKeystrokes : String := "keystrokes_per_minute"

/-!
Helper lemmas about tumbling windows, the update-mode emitter, and the
watermark tracker.
-/

lemma windowStart_le_self (size t : ℚ) (hs : 0 < size) : windowStart size t ≤ t := by
  unfold windowStart
  have h := Int.floor_le (t / size)
  calc size * (⌊t / size⌋ : ℚ) ≤ size * (t / size) := by
        exact mul_le_mul_of_nonneg_left h hs.le
    _ = t := by field_simp

lemma lt_windowStart_add (size t : ℚ) (hs : 0 < size) : t < windowStart size t + size := by
  unfold windowStart
  have h := Int.lt_floor_add_one (t / size)
  have h2 : t / size * size < ((⌊t / size⌋ : ℚ) + 1) * size :=
    mul_lt_mul_of_pos_right h hs
  have h3 : t / size * size = t := by field_simp
  nlinarith [h2]

lemma windowStart_eq_iff (size t u : ℚ) (hs : 0 < size) :
    windowStart size t = windowStart size u ↔ ⌊t / size⌋ = ⌊u / size⌋ := by
  unfold windowStart
  constructor
  · intro h
    have h2 := mul_left_cancel₀ (ne_of_gt hs) h
    exact_mod_cast h2
  · intro h; rw [h]

lemma mem_window_iff (size t u : ℚ) (hs : 0 < size) :
    (windowStart size u ≤ t ∧ t < windowStart size u + size) ↔
      windowStart size t = windowStart size u := by
  rw [windowStart_eq_iff size t u hs]
  unfold windowStart
  rw [Int.floor_eq_iff]
  constructor
  · rintro ⟨h1, h2⟩
    constructor
    · rw [le_div_iff₀ hs]; nlinarith
    · rw [div_lt_iff₀ hs]; nlinarith
  · rintro ⟨h1, h2⟩
    rw [le_div_iff₀ hs] at h1
    rw [div_lt_iff₀ hs] at h2
    constructor <;> nlinarith

lemma runObserve_lateness (obs : List (ℕ × ℚ)) :
    ∀ w : WatermarkTracker, (runObserve w obs).allowed_lateness = w.allowed_lateness := by
  induction obs with
  | nil => intro w; rfl
  | cons o rest ih => intro w; obtain ⟨q, t⟩ := o; simpa [runObserve] using ih (observe w q t)

lemma max_seen_runObserve (obs : List (ℕ × ℚ)) :
    ∀ (w : WatermarkTracker) (p : ℕ),
      (runObserve w obs).max_seen p
        = ((obs.filter fun o => o.1 == p).map Prod.snd).foldl
            (fun acc t => some (max (acc.getD t) t)) (w.max_seen p) := by
  induction obs with
  | nil => intro w p; rfl
  | cons o rest ih =>
      intro w p
      obtain ⟨q, t⟩ := o
      by_cases hq : q = p
      · subst hq
        rw [runObserve, ih]
        simp [List.filter_cons, observe]
      · rw [runObserve, ih]
        have hpq : p ≠ q := fun h => hq h.symm
        simp only [observe]
        rw [if_neg hpq]
        simp [List.filter_cons, hq]

lemma emitted_keys_sublist (s2 : List (TestKey × TestAcc)) :
    ∀ ks : List TestKey,
      ((ks.filterMap fun k => (lookupAcc k s2).map (finalizeTestRow k)).map
        TestRow.key).Sublist ks := by
  intro ks
  induction ks with
  | nil => simp
  | cons k ks ih =>
      cases h : lookupAcc k s2 with
      | none => simpa [List.filterMap_cons, h] using ih.cons k
      | some a =>
          simpa [List.filterMap_cons, h, finalizeTestRow] using ih.cons₂ k

lemma emitted_live_keys_sublist (s2 : List (LiveKey × LiveAcc)) :
    ∀ ks : List LiveKey,
      ((ks.filterMap fun k => (lookupLiveAcc k s2).map (finalizeLiveRow k)).map
        LiveRow.key).Sublist ks := by
  intro ks
  induction ks with
  | nil => simp
  | cons k ks ih =>
      cases h : lookupLiveAcc k s2 with
      | none => simpa [List.filterMap_cons, h] using ih.cons k
      | some a =>
          simpa [List.filterMap_cons, h, finalizeLiveRow] using ih.cons₂ k

instance : RightCommutative accAddTest :=
  ⟨fun a e1 e2 => by
    simp only [accAddTest, TestAcc.mk.injEq]
    refine ⟨?_, ?_, ?_, ?_, ?_, ?_, ?_⟩ <;> ring_nf⟩

instance : RightCommutative accAddLive :=
  ⟨fun a m1 m2 => by
    simp only [accAddLive, LiveAcc.mk.injEq]
    refine ⟨?_, ?_, ?_⟩ <;> ring_nf⟩

/-- A code-submission event as sent by the producer: its `event_type` is not
one of the three kinds the consumer filters for. -/
def exUnknown : RawEvent := send_code_submission_event 1 "challenge_x" 0

/-- Two micro-batches, each carrying one test-result event of the same
candidate, challenge and 10-minute window. -/
def c1_batches : List (List RawEvent) :=
  [[send_test_result_event 7 chalC1 1 2 100 [] 0],
   [send_test_result_event 7 chalC1 2 2 100 [] 0]]

/-- The window key shared by both events of `c1_batches`. -/
def testKeyZero : TestKey := ⟨0, 600, 7, some chalC1⟩

/-- A finalized completion row, as delivered to `write_to_postgres`. -/
def c5_row : CompletionRow :=
  selectCompletionColumns (send_challenge_completion_event 3 chalC1 85 3600 3 0)

/-- Concrete in-window test-result events for the permutation scenario. -/
def permTest1 : TestEvent := selectTestColumns (send_test_result_event 1 chalC1 1 2 100 [] 0)

/-- Second test-result event of the permutation scenario. -/
def permTest2 : TestEvent := selectTestColumns (send_test_result_event 1 chalC1 2 2 200 [] 60)

/-- Concrete in-window live-metric events for the permutation scenario. -/
def permLive1 : LiveEvent := selectLiveColumns (send_live_coding_metric 1 sessS1 metKeystrokes 42 0)

/-- Second live-metric event of the permutation scenario. -/
def permLive2 : LiveEvent := selectLiveColumns (send_live_coding_metric 1 sessS1 metKeystrokes 55 60)

/-!
Theorems for the specified claims.
-/

/-- C9: for every call to `send_test_result_event` with `tests_total = 0`,
the division computing `success_rate` is guarded (`if tests_total > 0`):
the function totally produces an event, and that event carries
`success_rate = 0`. -/
theorem success_rate_zero_when_tests_total_zero
    (cid : ℤ) (ch : String) (p : ℤ) (ex : ℚ) (errs : List String) (now : ℚ) :
    (send_test_result_event cid ch p 0 ex errs now).success_rate = some 0 := by
  norm_num [send_test_result_event, send_event, enrich_event]

/-- C10: when the Kafka producer is unavailable (`self.producer is None`),
`send_event` still returns `True` while delivering nothing to the message
bus, so a `True` return does not imply delivery. -/
theorem send_event_true_without_delivery :
    (∀ (p : RawEvent) (now : ℚ) (k : Bool),
        (send_event p now false k).2.1 = true ∧ (send_event p now false k).2.2 = false) ∧
    ¬ (∀ (p : RawEvent) (now : ℚ) (c k : Bool),
        (send_event p now c k).2.1 = true → (send_event p now c k).2.2 = true) := by
  constructor
  · intro p now k
    simp [send_event]
  · intro h
    have h2 := h emptyPayload 0 false false (by simp [send_event])
    simp [send_event] at h2

/-- C8: the `event_id` minted by `send_event` is a function of the
wall-clock millisecond alone: two calls with clock readings in the same
millisecond produce the same id, whatever the payloads, and distinct
events can therefore share an `event_id`. -/
theorem event_id_determined_by_millisecond :
    (∀ (p₁ p₂ : RawEvent) (n₁ n₂ : ℚ), ⌊n₁ * 1000⌋ = ⌊n₂ * 1000⌋ →
        (enrich_event p₁ n₁).event_id = (enrich_event p₂ n₂).event_id) ∧
    ∃ (p : RawEvent) (n₁ n₂ : ℚ), n₁ ≠ n₂ ∧
        (enrich_event p n₁).event_id = (enrich_event p n₂).event_id := by
  constructor
  · intro p₁ p₂ n₁ n₂ h
    simp [enrich_event, send_event_id, h]
  · refine ⟨emptyPayload, 1/2000, 1/3000, by norm_num, ?_⟩
    have ha : (⌊(1:ℚ)/2000 * 1000⌋ : ℤ) = 0 := by
      rw [Int.floor_eq_iff]
      norm_num
    have hb : (⌊(1:ℚ)/3000 * 1000⌋ : ℤ) = 0 := by
      rw [Int.floor_eq_iff]
      norm_num
    simp only [enrich_event, send_event_id]
    rw [ha, hb]

/-- Witness for C8: the clock readings `1/2000` and `1/3000` seconds fall
in the same millisecond, and the minted event ids coincide. -/
theorem event_id_same_millisecond_witness :
    (enrich_event emptyPayload ((1:ℚ)/2000)).event_id
      = (enrich_event emptyPayload ((1:ℚ)/3000)).event_id := by
  have ha : (⌊(1:ℚ)/2000 * 1000⌋ : ℤ) = 0 := by
    rw [Int.floor_eq_iff]
    norm_num
  have hb : (⌊(1:ℚ)/3000 * 1000⌋ : ℤ) = 0 := by
    rw [Int.floor_eq_iff]
    norm_num
  exact event_id_determined_by_millisecond.1 emptyPayload emptyPayload _ _ (ha.trans hb.symm)

/-- C2 counterexample: a `code_submission` event (an `event_type` outside
the three known kinds) decodes without any error and then matches none of
the consumer's three filters, so it is silently dropped from every output
stream; no `DecodeError` or dead-letter routing exists in the job. -/
theorem code_submission_silently_dropped :
    exUnknown.event_type = etCodeSubmission ∧
    exUnknown.event_type ≠ etTestResult ∧
    exUnknown.event_type ≠ etChallengeCompletion ∧
    exUnknown.event_type ≠ etLiveCodingMetric ∧
    test_results_stream [exUnknown] = [] ∧
    completions_stream [exUnknown] = [] ∧
    live_metrics_stream [exUnknown] = [] := by
  decide

/-- C2 (amended): an event whose `event_type` is none of the three known
kinds contributes nothing to any of the three output streams — it is
silently dropped rather than dead-lettered. -/
theorem unknown_event_type_filtered_from_streams
    (es : List RawEvent) (e : RawEvent)
    (h1 : e.event_type ≠ etTestResult)
    (h2 : e.event_type ≠ etChallengeCompletion)
    (h3 : e.event_type ≠ etLiveCodingMetric) :
    test_results_stream (e :: es) = test_results_stream es ∧
    completions_stream (e :: es) = completions_stream es ∧
    live_metrics_stream (e :: es) = live_metrics_stream es := by
  refine ⟨?_, ?_, ?_⟩ <;>
    simp [test_results_stream, completions_stream, live_metrics_stream,
      List.filter_cons, h1, h2, h3]

/-- Witness for C2 (amended): the concrete `code_submission` event. -/
theorem unknown_event_type_filtered_witness :
    test_results_stream [exUnknown] = test_results_stream [] ∧
    completions_stream [exUnknown] = completions_stream [] ∧
    live_metrics_stream [exUnknown] = live_metrics_stream [] :=
  unknown_event_type_filtered_from_streams [] exUnknown (by decide) (by decide) (by decide)

/-- C3 counterexample: for `tests_passed = 1, tests_total = 3` the value the
test-result pipeline folds into the window accumulator is the producer's
`round(1/3*100, 2) = 33.33`, not the exact `1/3*100`. -/
theorem folded_success_rate_ne_exact_ratio :
    (foldTestWindow (test_results_stream [send_test_result_event 1 chalC1 1 3 100 [] 0])).sr_sum
      ≠ (1 : ℚ) / 3 * 100 := by
  have hfl : (⌊((1:ℚ)/3 * 100) * 100⌋ : ℤ) = 3333 := by
    rw [Int.floor_eq_iff]
    norm_num
  norm_num [foldTestWindow, test_results_stream, send_test_result_event, send_event,
    enrich_event, emptyPayload, selectTestColumns, accAddTest, emptyTestAcc,
    py_round2, round_half_even, etTestResult, hfl, List.filter, List.foldl]

/-- C3 (amended): for `tests_total > 0` the value folded into the window's
running average is `round(tests_passed / tests_total * 100, 2)` — the
producer's two-decimal rounding of the ratio. -/
theorem folded_success_rate_eq_rounded
    (cid : ℤ) (ch : String) (p t : ℤ) (ex : ℚ) (errs : List String) (now : ℚ)
    (a : TestAcc) (h : 0 < t) :
    (accAddTest a (selectTestColumns (send_test_result_event cid ch p t ex errs now))).sr_sum
      = a.sr_sum + py_round2 ((p : ℚ) / (t : ℚ) * 100) := by
  simp [accAddTest, selectTestColumns, send_test_result_event, send_event, enrich_event, h]

/-- Witness for C3 (amended) at `tests_passed = 1, tests_total = 3`. -/
theorem folded_success_rate_eq_rounded_witness :
    (0 : ℤ) < 3 ∧
    (accAddTest emptyTestAcc
        (selectTestColumns (send_test_result_event 1 chalC1 1 3 100 [] 0))).sr_sum
      = emptyTestAcc.sr_sum + py_round2 (((1 : ℤ) : ℚ) / ((3 : ℤ) : ℚ) * 100) :=
  ⟨by decide, folded_success_rate_eq_rounded 1 chalC1 1 3 100 [] 0 emptyTestAcc (by decide)⟩

/-- C5 counterexample: delivering the same completion row twice through
`write_to_postgres` (JDBC `mode("append")`) leaves two rows for that key in
the sink, not one — the write is not idempotent. -/
theorem write_to_postgres_duplicate_rows :
    (write_to_postgres (write_to_postgres [] [c5_row]) [c5_row]).count c5_row = 2 ∧
    ¬ (write_to_postgres (write_to_postgres [] [c5_row]) [c5_row]).count c5_row = 1 := by
  constructor <;> simp [write_to_postgres]

/-- C5 (amended): `write_to_postgres` appends every delivered row with no
key-based upsert or deduplication, so the number of rows for any given row
value is additive across deliveries: replaying a batch double-counts. -/
theorem write_to_postgres_append_count
    (table batch : List CompletionRow) (r : CompletionRow) :
    write_to_postgres table batch = table ++ batch ∧
    (write_to_postgres table batch).count r = table.count r + batch.count r := by
  constructor
  · rfl
  · simp [write_to_postgres]

/-- C6: the per-window merge is order-insensitive — folding any permutation
of a fixed list of in-window events yields the same accumulator and hence
the same finalized row (same averages, counts and error count), for both
the test-result and the live-metric pipelines. -/
theorem window_fold_perm_invariant
    (l₁ l₂ : List TestEvent) (m₁ m₂ : List LiveEvent) (kt : TestKey) (kl : LiveKey)
    (hl : l₁.Perm l₂) (hm : m₁.Perm m₂) :
    foldTestWindow l₁ = foldTestWindow l₂ ∧
    finalizeTestRow kt (foldTestWindow l₁) = finalizeTestRow kt (foldTestWindow l₂) ∧
    foldLiveWindow m₁ = foldLiveWindow m₂ ∧
    finalizeLiveRow kl (foldLiveWindow m₁) = finalizeLiveRow kl (foldLiveWindow m₂) := by
  have ht : foldTestWindow l₁ = foldTestWindow l₂ := hl.foldl_eq emptyTestAcc
  have hv : foldLiveWindow m₁ = foldLiveWindow m₂ := hm.foldl_eq emptyLiveAcc
  exact ⟨ht, by rw [ht], hv, by rw [hv]⟩

/-- Witness for C6: two concrete events per pipeline, swapped. -/
theorem window_fold_perm_invariant_witness :
    foldTestWindow [permTest1, permTest2] = foldTestWindow [permTest2, permTest1] ∧
    finalizeTestRow testKeyZero (foldTestWindow [permTest1, permTest2])
      = finalizeTestRow testKeyZero (foldTestWindow [permTest2, permTest1]) ∧
    foldLiveWindow [permLive1, permLive2] = foldLiveWindow [permLive2, permLive1] ∧
    finalizeLiveRow (liveKeyOf permLive1) (foldLiveWindow [permLive1, permLive2])
      = finalizeLiveRow (liveKeyOf permLive1) (foldLiveWindow [permLive2, permLive1]) :=
  window_fold_perm_invariant [permTest1, permTest2] [permTest2, permTest1]
    [permLive1, permLive2] [permLive2, permLive1] testKeyZero (liveKeyOf permLive1)
    (List.Perm.swap permTest2 permTest1 [])
    (List.Perm.swap permLive2 permLive1 [])

/-- C7: for the spec-modelled Watermark Tracker, after any sequence of
`observe` calls the value of `current(p)` equals the maximum event time
observed for partition `p` minus `allowed_lateness` (absent before the
first observation), and a further `observe` — on any partition and with
any event time, however early — never decreases `current(p)`. -/
theorem watermark_max_minus_lateness_monotone (lat : ℚ) (obs : List (ℕ × ℚ)) (p : ℕ) :
    current (runObserve (initTracker lat) obs) p
      = (listMaxQ ((obs.filter fun o => o.1 == p).map Prod.snd)).map (fun m => m - lat) ∧
    ∀ (w : WatermarkTracker) (q : ℕ) (t v : ℚ), current w p = some v →
      ∃ v₁, current (observe w q t) p = some v₁ ∧ v ≤ v₁ := by
  constructor
  · unfold current listMaxQ
    rw [max_seen_runObserve, runObserve_lateness]
    rfl
  · intro w q t v hv
    simp only [current, observe] at hv ⊢
    cases hw : w.max_seen p with
    | none => rw [hw] at hv; simp at hv
    | some m =>
        rw [hw] at hv
        simp only [Option.map_some', Option.some.injEq] at hv
        by_cases hpq : p = q
        · subst hpq
          refine ⟨max ((w.max_seen p).getD t) t - w.allowed_lateness, ?_, ?_⟩
          · simp
          · rw [← hv, hw]
            simp only [Option.getD_some]
            exact sub_le_sub_right (le_max_left m t) _
        · refine ⟨v, ?_, le_refl v⟩
          rw [if_neg hpq]
          simp only [Option.map_some']
          rw [hv]

/-- Witness for C7: with lateness 600, after observing event time 1000 on
partition 0 the watermark is 400; an early event at time 400 does not make
it regress. -/
theorem watermark_monotone_witness :
    ∃ v₁, current (observe (runObserve (initTracker 600) [(0, 1000)]) 0 400) 0 = some v₁ ∧
      (400 : ℚ) ≤ v₁ :=
  (watermark_max_minus_lateness_monotone 600 [(0, 1000)] 0).2
    (runObserve (initTracker 600) [(0, 1000)]) 0 400 400
    (by norm_num [current, runObserve, observe, initTracker])

/-- C4: both aggregations use fixed-size non-overlapping tumbling windows —
every time point lies in exactly one 10-minute (test-result) and one
5-minute (live-metric) window; two test-result events share an accumulator
iff they agree on `(candidate_id, challenge_id)` and on their 10-minute
window, two live-metric events iff they agree on
`(candidate_id, session_id, metric_type)` and on their 5-minute window;
and the completions query emits exactly one row per arriving
`challenge_completion` event, with no windowing or buffering. -/
theorem tumbling_windows_and_keys :
    (∀ t : ℚ, windowStart 600 t ≤ t ∧ t < windowStart 600 t + 600) ∧
    (∀ t u : ℚ, (windowStart 600 u ≤ t ∧ t < windowStart 600 u + 600) ↔
        windowStart 600 t = windowStart 600 u) ∧
    (∀ t : ℚ, windowStart 300 t ≤ t ∧ t < windowStart 300 t + 300) ∧
    (∀ t u : ℚ, (windowStart 300 u ≤ t ∧ t < windowStart 300 u + 300) ↔
        windowStart 300 t = windowStart 300 u) ∧
    (∀ e1 e2 : TestEvent, testKeyOf e1 = testKeyOf e2 ↔
        (e1.candidate_id = e2.candidate_id ∧ e1.challenge_id = e2.challenge_id ∧
          windowStart 600 e1.event_time = windowStart 600 e2.event_time)) ∧
    (∀ m1 m2 : LiveEvent, liveKeyOf m1 = liveKeyOf m2 ↔
        (m1.candidate_id = m2.candidate_id ∧ m1.session_id = m2.session_id ∧
          m1.metric_type = m2.metric_type ∧
          windowStart 300 m1.event_time = windowStart 300 m2.event_time)) ∧
    (∀ bss : List (List RawEvent),
        runCompletions bss
          = (bss.flatten.filter fun e => e.event_type == etChallengeCompletion).map
              selectCompletionColumns) := by
  have h600 : (0 : ℚ) < 600 := by norm_num
  have h300 : (0 : ℚ) < 300 := by norm_num
  refine ⟨?_, ?_, ?_, ?_, ?_, ?_, ?_⟩
  · intro t
    exact ⟨windowStart_le_self 600 t h600, lt_windowStart_add 600 t h600⟩
  · intro t u
    exact mem_window_iff 600 t u h600
  · intro t
    exact ⟨windowStart_le_self 300 t h300, lt_windowStart_add 300 t h300⟩
  · intro t u
    exact mem_window_iff 300 t u h300
  · intro e1 e2
    simp only [testKeyOf, TestKey.mk.injEq]
    constructor
    · rintro ⟨hws, hwe, hc, hch⟩
      exact ⟨hc, hch, hws⟩
    · rintro ⟨hc, hch, hws⟩
      exact ⟨hws, by rw [hws], hc, hch⟩
  · intro m1 m2
    simp only [liveKeyOf, LiveKey.mk.injEq]
    constructor
    · rintro ⟨hws, hwe, hc, hs, hm⟩
      exact ⟨hc, hs, hm, hws⟩
    · rintro ⟨hc, hs, hm, hws⟩
      exact ⟨hws, by rw [hws], hc, hs, hm⟩
  · intro bss
    induction bss with
    | nil => rfl
    | cons b bs ih =>
        simp [runCompletions, completions_stream, ih, List.filter_append]

/-- C1 counterexample: with update output mode, the two batches of
`c1_batches` (same candidate, challenge and 10-minute window) make the
engine emit the same WindowKey at two triggers, so the emitted-rows stream
carries a duplicate key even though no forced close occurred. -/
theorem update_mode_duplicate_window_key :
    (runTestAggregates initTestEngine c1_batches).map TestRow.key
        = [testKeyZero, testKeyZero] ∧
    ¬ ((runTestAggregates initTestEngine c1_batches).map TestRow.key).Nodup := by
  have hkeys : (runTestAggregates initTestEngine c1_batches).map TestRow.key
      = [testKeyZero, testKeyZero] := by
    norm_num [runTestAggregates, processTestBatch, test_results_stream, stepTestState,
      insertAcc, lookupAcc, testKeyOf, windowStart, selectTestColumns,
      send_test_result_event, send_event, enrich_event, emptyPayload, advanceMaxSeen,
      finalizeTestRow, initTestEngine, c1_batches, testKeyZero, List.filter, List.dedup,
      List.filterMap, etTestResult]
  refine ⟨hkeys, ?_⟩
  rw [hkeys]
  simp

/-- C1 (amended): for both update-mode queries — the test-aggregates
query (query1) and the live-aggregates query (query3) — within the rows
emitted at a single trigger every WindowKey appears at most once
(`groupBy` yields one row per key per micro-batch); the at-most-once
property fails across triggers because update mode re-emits a window's
key at every trigger that updates it. -/
theorem batch_emission_keys_nodup :
    (∀ (wm : Option ℚ) (s : List (TestKey × TestAcc)) (batch : List TestEvent),
        (((processTestBatch wm s batch).2).map TestRow.key).Nodup) ∧
    (∀ (wm : Option ℚ) (s : List (LiveKey × LiveAcc)) (batch : List LiveEvent),
        (((processLiveBatch wm s batch).2).map LiveRow.key).Nodup) := by
  constructor
  · intro wm s batch
    unfold processTestBatch
    exact List.Nodup.sublist (emitted_keys_sublist _ _) (List.nodup_dedup _)
  · intro wm s batch
    unfold processLiveBatch
    exact List.Nodup.sublist (emitted_live_keys_sublist _ _) (List.nodup_dedup _)
